import Mathlib

/-!
Verification development for the basemap tile-generation pipeline
(`processing/runCreateTiles.py`, with the legacy variant
`overture/runCreateTiles.py` embedded separately where a claim concerns it).

The Python code is shallowly embedded: pure decision logic (layer rule
resolution, tippecanoe parameter selection, building LOD configuration,
manifest assembly) is translated into executable Lean definitions, and the
effectful parts (filesystem reads, subprocess invocations) are parameterised
by explicit oracles so that orchestration control flow becomes a pure
function of those oracles.
-/

namespace Basemap

/-- ASCII lower-casing of one character, the behaviour of Python `str.lower`
on the ASCII identifiers used by the script. -/
def lowerChar (c : Char) : Char :=
  if 65 ≤ c.toNat ∧ c.toNat ≤ 90 then Char.ofNat (c.toNat + 32) else c

/-- Embedding of Python `s.lower()` for the strings this script handles. -/
def lowerStr (s : String) : String := String.mk (s.data.map lowerChar)

/-- Whether `pat` occurs at the start of `l`. -/
def listIsPrefixOf : List Char → List Char → Bool
  | [], _ => true
  | _ :: _, [] => false
  | a :: as, b :: bs => a == b && listIsPrefixOf as bs

/-- Whether `pat` occurs contiguously anywhere inside the second list. -/
def listHasInfixOf (pat : List Char) : List Char → Bool
  | [] => pat.isEmpty
  | c :: cs => listIsPrefixOf pat (c :: cs) || listHasInfixOf pat cs

/-- Embedding of the Python substring test `pat in s`. -/
def containsSub (s pat : String) : Bool := listHasInfixOf pat.data s.data

/-- Characters of a path after the last slash: Python `Path(p).name`. -/
def pathName (s : String) : String :=
  String.mk ((s.data.reverse.takeWhile (fun c => c ≠ '/')).reverse)

/-- Characters before the last dot of a list, if the list has a dot. -/
def beforeLastDot : List Char → Option (List Char)
  | [] => none
  | c :: cs =>
    match beforeLastDot cs with
    | some tail => some (c :: tail)
    | none => if c = '.' then some [] else none

/-- Python `Path(p).stem`: the final path component with its last extension
removed (a name whose only dot is its first character keeps that dot). -/
def stem (s : String) : String :=
  let name := pathName s
  match beforeLastDot name.data with
  | some [] => name
  | some pre => String.mk pre
  | none => name

/-- The named generalization-rule buckets of `get_layer_tippecanoe_settings`. -/
inductive LayerType where
  | water
  | settlementExtents
  | roads
  | places
  | basePolygons
deriving DecidableEq, Repr

/-- Declared-layer-name resolution: the first `if layer_name:` cascade of
`get_layer_tippecanoe_settings` (processing/runCreateTiles.py lines 742-758). -/
def layerTypeFromName (layer_name : String) : Option LayerType :=
  let layer_name_lower := lowerStr layer_name
  if layer_name_lower = "water" then some .water
  else if layer_name_lower = "settlement-extents" ∨ layer_name_lower = "settlementextents" then
    some .settlementExtents
  else if layer_name_lower = "roads" then some .roads
  else if layer_name_lower = "places" ∨ layer_name_lower = "placenames" then some .places
  else if layer_name_lower = "land_use" ∨ layer_name_lower = "land_cover" ∨
      layer_name_lower = "land_residential" ∨ layer_name_lower = "infrastructure" then
    some .basePolygons
  else none

/-- The land-related filename keywords, in source order. -/
def land_keywords : List String :=
  ["land_use", "land_cover", "land_residential", "infrastructure", "land"]

/-- Filename-pattern resolution: the `if layer_type is None and filename:`
cascade of `get_layer_tippecanoe_settings` (lines 761-780). -/
def layerTypeFromFilename (filename : String) : Option LayerType :=
  let filename_lower := lowerStr filename
  if land_keywords.any (fun keyword => containsSub filename_lower keyword) then some .basePolygons
  else if containsSub filename_lower "water" then some .water
  else if containsSub filename_lower "extents" ∨ containsSub filename_lower "settlement" then
    some .settlementExtents
  else if containsSub filename_lower "roads" then some .roads
  else if containsSub filename_lower "places" ∨ containsSub filename_lower "placenames" then
    some .places
  else none

/-- The combined layer-rule resolution chain: declared layer name first
(`none` models a Python-falsy layer name), then filename patterns, `none`
meaning the geometry-detection fallback will be used. -/
def resolveLayerType (layer_name filename : Option String) : Option LayerType :=
  match layer_name with
  | some n =>
    match layerTypeFromName n with
    | some t => some t
    | none => filename.bind layerTypeFromFilename
  | none => filename.bind layerTypeFromFilename

/-- Layer-specific flags for the water bucket (lines 789-799). -/
def waterSettings : List String :=
  ["--simplification=2", "--low-detail=11", "--full-detail=13",
   "--no-tiny-polygon-reduction", "--no-feature-limit",
   "--extend-zooms-if-still-dropping", "--maximum-tile-bytes=2097152",
   "--maximum-zoom=15", "--gamma=0.9"]

/-- Layer-specific flags for the settlement-extents bucket (lines 801-814). -/
def settlementExtentsSettings : List String :=
  ["--simplification=5", "--drop-rate=0.25", "--low-detail=11", "--full-detail=14",
   "--coalesce-smallest-as-needed", "--gamma=0.8", "--maximum-zoom=13",
   "--minimum-zoom=6", "--cluster-distance=2", "--minimum-detail=8"]

/-- Layer-specific flags for the roads bucket (lines 816-830). -/
def roadsSettings : List String :=
  ["--no-line-simplification", "--buffer=16", "--drop-rate=0.05", "--drop-smallest",
   "--simplification=5", "--minimum-zoom=7", "--extend-zooms-if-still-dropping",
   "--coalesce-smallest-as-needed", "--full-detail=13", "--minimum-detail=10"]

/-- Layer-specific flags for the places bucket (lines 832-837). -/
def placesSettings : List String :=
  ["--cluster-distance=35", "--drop-rate=0.1"]

/-- Layer-specific flags for the base-polygons bucket (lines 839-851). -/
def basePolygonsSettings : List String :=
  ["--simplification=5", "--drop-rate=0.1", "--low-detail=10", "--full-detail=14",
   "--coalesce-smallest-as-needed", "--maximum-zoom=15", "--minimum-zoom=9",
   "--no-tiny-polygon-reduction"]

/-- Geometry-fallback flags when the detected geometry is Point (lines 866-879). -/
def pointGeomSettings : List String :=
  ["--cluster-distance=35", "--drop-rate=0.05", "--low-detail=8", "--full-detail=11",
   "--coalesce-smallest-as-needed", "--extend-zooms-if-still-dropping", "--gamma=0.3",
   "--maximum-zoom=15", "--minimum-zoom=6", "--simplification=1"]

/-- Geometry-fallback flags when the detected geometry is LineString (lines 881-895). -/
def lineGeomSettings : List String :=
  ["--no-line-simplification", "--drop-rate=0.08", "--low-detail=9", "--full-detail=12",
   "--coalesce-smallest-as-needed", "--extend-zooms-if-still-dropping", "--gamma=0.4",
   "--maximum-zoom=15", "--minimum-zoom=7", "--simplification=3", "--buffer=12"]

/-- Geometry-fallback flags when the detected geometry is Polygon (lines 897-910). -/
def polygonGeomSettings : List String :=
  ["--simplification=5", "--drop-rate=0.1", "--low-detail=10", "--full-detail=13",
   "--coalesce-smallest-as-needed", "--extend-zooms-if-still-dropping", "--gamma=0.5",
   "--maximum-zoom=15", "--minimum-zoom=8", "--no-tiny-polygon-reduction"]

/-- Conservative fallback flags for Mixed or Unknown geometry (lines 912-924). -/
def mixedUnknownGeomSettings : List String :=
  ["--simplification=3", "--drop-rate=0.08", "--low-detail=9", "--full-detail=12",
   "--coalesce-smallest-as-needed", "--extend-zooms-if-still-dropping", "--gamma=0.4",
   "--maximum-zoom=15", "--minimum-zoom=7"]

/-- Read-only filesystem oracle: whether a candidate input file exists (after
the data-directory search of lines 727-732) and what
`detect_geometry_type` reports for it. -/
structure FsOracle where
  exists_file : String → Bool
  detect : String → String

/-- The geometry type the fallback branch of `get_layer_tippecanoe_settings`
works with: `detect_geometry_type(file_path)` when a file was found, the
literal `Unknown` otherwise (lines 856-863). -/
def geometryFor (fs : FsOracle) (filename : Option String) : String :=
  match filename with
  | some f => if fs.exists_file f then fs.detect f else "Unknown"
  | none => "Unknown"

/-- Embedding of `get_layer_tippecanoe_settings(layer_name, filename_or_path)`:
resolve the rule bucket from the declared name, then the filename, then fall
back to geometry-specific settings (lines 701-940). -/
def get_layer_tippecanoe_settings (fs : FsOracle) (layer_name filename : Option String) :
    List String :=
  match resolveLayerType layer_name filename with
  | some .water => waterSettings
  | some .settlementExtents => settlementExtentsSettings
  | some .roads => roadsSettings
  | some .places => placesSettings
  | some .basePolygons => basePolygonsSettings
  | none =>
    let geometry_type := geometryFor fs filename
    if geometry_type = "Point" then pointGeomSettings
    else if geometry_type = "LineString" then lineGeomSettings
    else if geometry_type = "Polygon" then polygonGeomSettings
    else mixedUnknownGeomSettings

/-- Normalization of multi-part geometry types to their base category
(`detect_geometry_type`, lines 678-687). -/
def normalizeGeomType (t : String) : String :=
  if t = "Point" ∨ t = "MultiPoint" then "Point"
  else if t = "LineString" ∨ t = "MultiLineString" then "LineString"
  else if t = "Polygon" ∨ t = "MultiPolygon" then "Polygon"
  else t

/-- The decision step of `detect_geometry_type` on the set of geometry types
collected from the sample: one normalized category is returned as-is, two or
more yield `Mixed`, none yields `Unknown` (lines 689-695). -/
def detectFromTypes (geometry_types : List String) : String :=
  match (geometry_types.map normalizeGeomType).dedup with
  | [t] => t
  | [] => "Unknown"
  | _ => "Mixed"

/-- Embedding of `detect_geometry_type(file_path)`. The oracle input is the
list of geometry-type strings of the valid sampled features, in file order;
`none` models a file that cannot be opened or parsed at all (every such error
is caught and surfaced as `Unknown`, lines 697-699). The sample is capped at
100 counted records (line 621). -/
def detect_geometry_type (sample : Option (List String)) : String :=
  match sample with
  | none => "Unknown"
  | some ts => detectFromTypes (ts.take 100)

/-- The clip extent, one component per module-level extent variable. The
components are kept in their printed form, since the script only ever
interpolates them into command strings. -/
structure Extent where
  xmin : String
  ymin : String
  xmax : String
  ymax : String
deriving DecidableEq, Repr

/-- The f-string argument of `--clip-bounding-box`:
the four extent components joined by commas (lines 952, 981, 1215). -/
def clipString (e : Extent) : String :=
  e.xmin ++ "," ++ e.ymin ++ "," ++ e.xmax ++ "," ++ e.ymax

/-- Embedding of `get_tippecanoe_command(input_path, tile_path, layer_name)`
(lines 942-971): the consolidated base command followed by the
layer-specific settings. -/
def get_tippecanoe_command (fs : FsOracle) (e : Extent)
    (input_path tile_path layer_name : String) : List String :=
  ["tippecanoe",
   "-fo", tile_path,
   "-zg",
   "-l", layer_name,
   "--single-precision",
   "--clip-bounding-box", clipString e,
   "--buffer=8",
   "--no-polygon-splitting",
   "--detect-shared-borders",
   "--drop-smallest",
   "--maximum-tile-bytes=1048576",
   "--preserve-input-order",
   "--coalesce-densest-as-needed",
   "--drop-fraction-as-needed",
   "-P",
   input_path]
  ++ get_layer_tippecanoe_settings fs (some layer_name) (some (pathName input_path))

/-- An inclusive zoom window, the `zoom_range` dict of a building LOD tier. -/
structure ZoomRange where
  min : Nat
  max : Nat
deriving DecidableEq, Repr

/-- Whether zoom level `z` falls inside window `r` (both bounds inclusive,
matching tippecanoe `-Z`/`-z`). -/
def inZoomWindow (r : ZoomRange) (z : Nat) : Prop := r.min ≤ z ∧ z ≤ r.max

instance (r : ZoomRange) (z : Nat) : Decidable (inZoomWindow r z) :=
  inferInstanceAs (Decidable (_ ∧ _))

/-- LOD-specific trailing flags of `get_building_tippecanoe_command`
(lines 994-1012). -/
def buildingLodSettings (lod_type : String) : List String :=
  if lod_type = "low" then ["--simplification=10", "--drop-rate=0.5", "--buffer=8"]
  else if lod_type = "medium" then ["--simplification=5", "--drop-rate=0.333", "--buffer=8"]
  else if lod_type = "high" then ["--simplification=10", "--drop-rate=0.1", "--buffer=4"]
  else []

/-- Embedding of `get_building_tippecanoe_command(input_path, tile_path,
layer_name, lod_type, zoom_range)` (lines 973-1014). -/
def get_building_tippecanoe_command (e : Extent)
    (input_path tile_path layer_name lod_type : String) (zoom_range : ZoomRange) :
    List String :=
  ["tippecanoe",
   "-fo", tile_path,
   "-z" ++ toString zoom_range.max,
   "-Z" ++ toString zoom_range.min,
   "-l", layer_name,
   "--clip-bounding-box", clipString e,
   "--drop-smallest",
   "--coalesce-smallest-as-needed",
   "--detect-shared-borders",
   "--preserve-input-order",
   "--maximum-tile-bytes=1048576",
   "-P",
   input_path]
  ++ buildingLodSettings lod_type

/-- The `primary_layer_map` dict of `get_theme_tippecanoe_command`
(lines 1234-1238). -/
def primary_layer_map (theme_name : String) : Option String :=
  if theme_name = "base" then some "base-polygons"
  else if theme_name = "transportation" then some "roads"
  else if theme_name = "places" then some "places"
  else none

/-- Embedding of `get_theme_tippecanoe_command(theme_name, theme_tile_path,
layer_files)` (lines 1209-1245): base command, one layer-declaration flag per
sub-layer, then the primary-layer settings of the theme. -/
def get_theme_tippecanoe_command (fs : FsOracle) (e : Extent)
    (theme_name theme_tile_path : String) (layer_files : List (String × String)) :
    List String :=
  ["tippecanoe",
   "-fo", theme_tile_path,
   "-zg",
   "--clip-bounding-box", clipString e,
   "--cluster-maxzoom=11"]
  ++ layer_files.flatMap (fun lf =>
      if lf.2.endsWith ".geojsonseq" then ["--named-layer", lf.1 ++ ":" ++ lf.2]
      else ["-L", lf.1 ++ ":" ++ lf.2])
  ++ (if theme_name = "settlement-extents" then
        get_layer_tippecanoe_settings fs (some "settlement-extents") (some "settlement-extents")
      else
        match primary_layer_map theme_name with
        | some primary_layer => get_layer_tippecanoe_settings fs (some primary_layer) none
        | none => [])

/-- One entry of the `lod_configs` dict of `create_building_tiles`
(lines 1122-1138). -/
structure LodConfig where
  skip : Bool
  zoom_range : ZoomRange
  suffix : String
deriving DecidableEq, Repr

/-- The `lod_configs` dict of `create_building_tiles`, in iteration order,
for given skip flags (lines 1122-1138). -/
def lod_configs (skip_low_lod skip_medium_lod skip_high_lod : Bool) :
    List (String × LodConfig) :=
  [("low", { skip := skip_low_lod, zoom_range := { min := 0, max := 9 }, suffix := "_low_lod" }),
   ("medium",
    { skip := skip_medium_lod, zoom_range := { min := 11, max := 13 }, suffix := "_medium_lod" }),
   ("high",
    { skip := skip_high_lod, zoom_range := { min := 13, max := 15 }, suffix := "_high_lod" })]

/-- One attempted external-tool invocation for a building LOD tier. -/
structure LodAttempt where
  lod_type : String
  zoom_range : ZoomRange
  out_path : String
  cmd : List String
  ok : Bool
deriving DecidableEq, Repr

/-- The loop body of `create_building_tiles` (lines 1140-1153): skipped tiers
are passed over, a successful invocation moves to the next tier, and a
`CalledProcessError` makes the function `return`, abandoning the remaining
tiers. `exec` is the subprocess oracle: whether a command exits zero. -/
def runLodConfigs (exec : List String → Bool) (e : Extent)
    (input_path tile_dir base_name layer_name : String) :
    List (String × LodConfig) → List LodAttempt
  | [] => []
  | (lod_type, config) :: rest =>
    if config.skip then runLodConfigs exec e input_path tile_dir base_name layer_name rest
    else
      let lod_path := tile_dir ++ "/" ++ base_name ++ config.suffix ++ ".pmtiles"
      let cmd := get_building_tippecanoe_command e input_path lod_path layer_name lod_type
        config.zoom_range
      if exec cmd then
        { lod_type := lod_type, zoom_range := config.zoom_range, out_path := lod_path,
          cmd := cmd, ok := true }
          :: runLodConfigs exec e input_path tile_dir base_name layer_name rest
      else
        [{ lod_type := lod_type, zoom_range := config.zoom_range, out_path := lod_path,
           cmd := cmd, ok := false }]

/-- Embedding of `create_building_tiles(input_path, tile_dir, geojson_file,
skip_low_lod, skip_medium_lod, skip_high_lod)` (lines 1116-1153), returning
the trace of tool invocations it performs. -/
def create_building_tiles_run (exec : List String → Bool) (e : Extent)
    (input_path tile_dir geojson_file : String)
    (skip_low_lod skip_medium_lod skip_high_lod : Bool) : List LodAttempt :=
  runLodConfigs exec e input_path tile_dir (stem geojson_file) "layer"
    (lod_configs skip_low_lod skip_medium_lod skip_high_lod)

/-- The building branch of the orchestrator (line 539): `create_building_tiles` is
called with only the three positional arguments, so the keyword defaults
`skip_low_lod=False, skip_medium_lod=False, skip_high_lod=True` (line 1116)
apply. -/
def process_buildings_default (exec : List String → Bool) (e : Extent)
    (input_path tile_dir geojson_file : String) : List LodAttempt :=
  create_building_tiles_run exec e input_path tile_dir geojson_file false false true

/-- Outcome of one external tile-tool invocation as seen by the orchestrator:
a zero exit, a non-zero exit (`subprocess.CalledProcessError`), or a missing
tool binary (`FileNotFoundError`). -/
inductive ToolOutcome where
  | success
  | calledProcessError
  | fileNotFound
deriving DecidableEq, Repr

/-- Whether one invocation outcome counts as a success for the orchestrator:
only a zero exit does; both exception outcomes are logged failures. -/
def outcomeOk (o : ToolOutcome) : Bool :=
  match o with
  | .success => true
  | .calledProcessError => false
  | .fileNotFound => false

/-- The per-theme loop of `process_to_tiles` in processing/runCreateTiles.py
(lines 556-568): every unit is guarded by `try/except CalledProcessError`
plus a blanket `except Exception`, so the loop always advances to the next
theme whatever the outcome — a missing binary raises `FileNotFoundError`,
which the blanket handler also swallows. -/
def process_themes_run (exec : String → ToolOutcome) (themes : List String) :
    List (String × Bool) :=
  themes.map (fun theme => (theme, outcomeOk (exec theme)))

/-- Lexicographic order on character lists by code point, the order Python
`sorted` applies to the path strings of `create_tilejson`. -/
def charListLe : List Char → List Char → Bool
  | [], _ => true
  | _ :: _, [] => false
  | a :: as, b :: bs =>
    if a < b then true
    else if b < a then false
    else charListLe as bs

/-- String order used by `sorted(available_tiles)` (line 1086). -/
def strLe (a b : String) : Prop := charListLe a.data b.data = true

instance : DecidableRel strLe := fun a b =>
  inferInstanceAs (Decidable (charListLe a.data b.data = true))

instance : IsTotal String strLe :=
  ⟨by
    intro x y
    obtain ⟨as⟩ := x
    obtain ⟨bs⟩ := y
    show charListLe as bs = true ∨ charListLe bs as = true
    induction as generalizing bs with
    | nil => left; rfl
    | cons a as ih =>
      cases bs with
      | nil => right; rfl
      | cons b bs =>
        simp only [charListLe]
        rcases lt_trichotomy a b with h | h | h
        · left; simp [h]
        · subst h
          simp only [lt_irrefl, if_false]
          exact ih bs
        · right; simp [h]⟩

instance : IsTrans String strLe :=
  ⟨by
    intro x y z hxy hyz
    obtain ⟨as⟩ := x
    obtain ⟨bs⟩ := y
    obtain ⟨cs⟩ := z
    replace hxy : charListLe as bs = true := hxy
    replace hyz : charListLe bs cs = true := hyz
    show charListLe as cs = true
    induction as generalizing bs cs with
    | nil => rfl
    | cons a as ih =>
      cases bs with
      | nil => simp [charListLe] at hxy
      | cons b bs =>
        cases cs with
        | nil => simp [charListLe] at hyz
        | cons c cs =>
          simp only [charListLe] at hxy hyz ⊢
          rcases lt_trichotomy a b with h1 | h1 | h1
          · rcases lt_trichotomy b c with h2 | h2 | h2
            · simp [lt_trans h1 h2]
            · subst h2; simp [h1]
            · simp [h2, not_lt.mpr (le_of_lt h2)] at hyz
          · subst h1
            rcases lt_trichotomy a c with h2 | h2 | h2
            · simp [h2]
            · subst h2
              simp only [lt_irrefl, if_false] at hxy hyz ⊢
              exact ih bs cs hxy hyz
            · simp [h2, not_lt.mpr (le_of_lt h2)] at hyz
          · simp [h1, not_lt.mpr (le_of_lt h1)] at hxy⟩

instance : IsAntisymm String strLe :=
  ⟨by
    intro x y hxy hyx
    obtain ⟨as⟩ := x
    obtain ⟨bs⟩ := y
    replace hxy : charListLe as bs = true := hxy
    replace hyx : charListLe bs as = true := hyx
    suffices h : as = bs by rw [h]
    induction as generalizing bs with
    | nil =>
      cases bs with
      | nil => rfl
      | cons b bs => simp [charListLe] at hyx
    | cons a as ih =>
      cases bs with
      | nil => simp [charListLe] at hxy
      | cons b bs =>
        simp only [charListLe] at hxy hyx
        rcases lt_trichotomy a b with h | h | h
        · simp [h, not_lt.mpr (le_of_lt h)] at hyx
        · subst h
          simp only [lt_irrefl, if_false] at hxy hyx
          rw [ih bs hxy hyx]
        · simp [h, not_lt.mpr (le_of_lt h)] at hxy⟩

/-- Embedding of Python `sorted` on a list of strings (line 1086). -/
def sortStrings (l : List String) : List String := List.insertionSort strLe l

/-- One entry of a TileJSON `vector_layers` list. -/
structure VectorLayer where
  id : String
  description : String
  fields : List (String × String)
deriving DecidableEq, Repr

/-- The `core_tiles` table of `create_tilejson` (lines 1034-1083): recognized
archive names with their known layer schemas. -/
def core_tiles : List (String × List VectorLayer) :=
  [("base.pmtiles",
    [{ id := "land_use", description := "Land use polygons",
       fields := [("subtype", "String"), ("class", "String")] },
     { id := "land_residential", description := "Residential areas",
       fields := [("subtype", "String"), ("class", "String")] },
     { id := "water", description := "Water bodies",
       fields := [("subtype", "String"), ("class", "String")] },
     { id := "infrastructure", description := "Infrastructure",
       fields := [("subtype", "String"), ("class", "String")] }]),
   ("settlement-extents.pmtiles",
    [{ id := "settlementextents", description := "Settlement boundary extents",
       fields := [("name", "String"), ("type", "String"), ("id", "String")] }]),
   ("transportation.pmtiles",
    [{ id := "roads", description := "Road network",
       fields := [("class", "String"), ("subclass", "String")] }]),
   ("places.pmtiles",
    [{ id := "places", description := "Points of interest",
       fields := [("category", "String"), ("confidence", "Number")] },
     { id := "placenames", description := "Place names",
       fields := [("subtype", "String"), ("locality_type", "String")] },
     { id := "health_facilities", description := "Health facilities",
       fields := [("name", "String"), ("type", "String"), ("id", "String")] },
     { id := "settlement_names", description := "Settlement names",
       fields := [("name", "String"), ("type", "String"), ("id", "String")] }]),
   ("admin.pmtiles",
    [{ id := "health_areas", description := "Health administrative areas",
       fields := [("name", "String"), ("type", "String"), ("id", "String")] },
     { id := "health_zones", description := "Health administrative zones",
       fields := [("name", "String"), ("type", "String"), ("id", "String")] }]),
   ("buildings_low_lod.pmtiles",
    [{ id := "buildings", description := "Buildings (Low LOD)",
       fields := [("name", "String"), ("height", "Number"), ("level", "Number")] }]),
   ("buildings_medium_lod.pmtiles",
    [{ id := "buildings", description := "Buildings (Medium LOD)",
       fields := [("name", "String"), ("height", "Number"), ("level", "Number")] }]),
   ("buildings_high_lod.pmtiles",
    [{ id := "buildings", description := "Buildings (High LOD)",
       fields := [("name", "String"), ("height", "Number"), ("level", "Number")] }])]

/-- The vector layers contributed by one discovered archive (lines 1091-1103):
the known schema for a recognized core tile, else a single generic
`layer` descriptor. -/
def vectorLayersFor (tile_name : String) : List VectorLayer :=
  match core_tiles.find? (fun entry => entry.1 = tile_name) with
  | some entry => entry.2
  | none =>
    [{ id := "layer", description := "Custom layer: " ++ stem tile_name,
       fields := [("id", "String"), ("name", "String")] }]

/-- The TileJSON document of `create_tilejson` (lines 1020-1028). -/
structure TileJson where
  name : String
  minzoom : Nat
  maxzoom : Nat
  bounds : Extent
  tiles : List String
  vector_layers : List VectorLayer
deriving DecidableEq, Repr

/-- Embedding of `create_tilejson()` (lines 1016-1114): the discovered
`*.pmtiles` names (in arbitrary glob order) are sorted, then `tiles` and
`vector_layers` are populated by one pass over the sorted list. -/
def create_tilejson (e : Extent) (available_tiles : List String) : TileJson :=
  let sorted_tiles := sortStrings available_tiles
  { name := "Basemap prototype",
    minzoom := 0,
    maxzoom := 14,
    bounds := e,
    tiles := sorted_tiles.map (fun tile_name => "pmtiles://tiles/" ++ tile_name),
    vector_layers := sorted_tiles.flatMap vectorLayersFor }

end Basemap

namespace BasemapOverture

/-- The per-file loop of `process_to_tiles` in the legacy
overture/runCreateTiles.py (lines 129-209): a `CalledProcessError` is logged
and the loop continues, but `except FileNotFoundError: ... break` abandons
every remaining file. Returns the trace of attempted units. -/
def process_to_tiles_run (exec : String → Basemap.ToolOutcome) :
    List String → List (String × Basemap.ToolOutcome)
  | [] => []
  | f :: rest =>
    match exec f with
    | .fileNotFound => [(f, .fileNotFound)]
    | outcome => (f, outcome) :: process_to_tiles_run exec rest

end BasemapOverture

namespace Basemap

theorem sortStrings_perm (l : List String) : (sortStrings l).Perm l :=
  List.perm_insertionSort strLe l

theorem sortStrings_sorted (l : List String) : List.Sorted strLe (sortStrings l) :=
  List.sorted_insertionSort strLe l

theorem sortStrings_congr {l₁ l₂ : List String} (h : l₁.Perm l₂) :
    sortStrings l₁ = sortStrings l₂ :=
  List.eq_of_perm_of_sorted
    (((sortStrings_perm l₁).trans h).trans (sortStrings_perm l₂).symm)
    (sortStrings_sorted l₁) (sortStrings_sorted l₂)

/-- C8: geometry classification never raises to its caller; a file that cannot
be opened or parsed, and a file yielding no valid geometry sample, both
surface as the `Unknown` category. The classifier is embedded as a pure
function of a read-only sample oracle, so it has no write effect on the
file. -/
theorem c8_classifier_swallows_errors (sample : Option (List String)) :
    (sample = none → detect_geometry_type sample = "Unknown") ∧
    (sample = some [] → detect_geometry_type sample = "Unknown") := by
  constructor
  · rintro rfl; rfl
  · rintro rfl; rfl

theorem c8_classifier_swallows_errors_witness :
    detect_geometry_type none = "Unknown" ∧ detect_geometry_type (some []) = "Unknown" :=
  ⟨(c8_classifier_swallows_errors none).1 rfl, (c8_classifier_swallows_errors (some [])).2 rfl⟩

/-- C9: manifest assembly is deterministic and idempotent. Whatever order the
directory scan reports the archive files in, the produced document is the
same; the archive list has one entry per file; and both `tiles` and
`vector_layers` are populated from the same sorted-path-order traversal. -/
theorem c9_manifest_deterministic (e : Extent) (listing listing2 : List String)
    (h : listing.Perm listing2) :
    create_tilejson e listing = create_tilejson e listing2 ∧
    (create_tilejson e listing).tiles.length = listing.length ∧
    ∃ s : List String, s.Perm listing ∧ List.Sorted strLe s ∧
      (create_tilejson e listing).tiles = s.map (fun n => "pmtiles://tiles/" ++ n) ∧
      (create_tilejson e listing).vector_layers = s.flatMap vectorLayersFor := by
  refine ⟨?_, ?_, sortStrings listing, sortStrings_perm listing, sortStrings_sorted listing,
    rfl, rfl⟩
  · unfold create_tilejson
    rw [sortStrings_congr h]
  · show ((sortStrings listing).map _).length = listing.length
    rw [List.length_map, (sortStrings_perm listing).length_eq]

theorem c9_manifest_deterministic_witness :
    create_tilejson { xmin := "20.0", ymin := "-7.0", xmax := "26.0", ymax := "-3.0" }
        ["transportation.pmtiles", "custom.pmtiles"]
      = create_tilejson { xmin := "20.0", ymin := "-7.0", xmax := "26.0", ymax := "-3.0" }
        ["custom.pmtiles", "transportation.pmtiles"] :=
  (c9_manifest_deterministic _ _ _ (by decide)).1

end Basemap

namespace Basemap

/-- C1: layer rule resolution is a fixed precedence chain evaluated
first-match-wins. A declared layer name matching one of the fixed
case-insensitive name sets decides the bucket with no further checks (in
particular a declared name lower-casing to `roads` always yields the roads
bucket, whatever the filename); only when the declared name matches no set is
the filename consulted, and there the land-keyword check precedes every other
pattern, so a filename containing `land_use` resolves to base-polygons even
when it also contains `water`; water precedes extents/settlement, which
precedes roads, which precedes places/placenames. -/
theorem c1_layer_rule_precedence :
    (∀ (n : String) (fn : Option String) (t : LayerType),
      layerTypeFromName n = some t → resolveLayerType (some n) fn = some t) ∧
    (∀ (n : String) (fn : Option String), lowerStr n = "roads" →
      resolveLayerType (some n) fn = some LayerType.roads) ∧
    (∀ (n fn : String), layerTypeFromName n = none →
      resolveLayerType (some n) (some fn) = layerTypeFromFilename fn) ∧
    (∀ fn : String,
      land_keywords.any (fun keyword => containsSub (lowerStr fn) keyword) = true →
      layerTypeFromFilename fn = some LayerType.basePolygons) ∧
    (∀ fn : String,
      land_keywords.any (fun keyword => containsSub (lowerStr fn) keyword) = false →
      containsSub (lowerStr fn) "water" = true →
      layerTypeFromFilename fn = some LayerType.water) ∧
    (∀ fn : String,
      land_keywords.any (fun keyword => containsSub (lowerStr fn) keyword) = false →
      containsSub (lowerStr fn) "water" = false →
      containsSub (lowerStr fn) "extents" = true →
      layerTypeFromFilename fn = some LayerType.settlementExtents) := by
  refine ⟨?_, ?_, ?_, ?_, ?_, ?_⟩
  · intro n fn t h
    simp [resolveLayerType, h]
  · intro n fn h
    have hname : layerTypeFromName n = some LayerType.roads := by
      simp [layerTypeFromName, h]
    simp [resolveLayerType, hname]
  · intro n fn h
    simp [resolveLayerType, h]
  · intro fn h
    simp [layerTypeFromFilename, h]
  · intro fn h1 h2
    simp [layerTypeFromFilename, h1, h2]
  · intro fn h1 h2 h3
    simp [layerTypeFromFilename, h1, h2, h3]

theorem c1_layer_rule_precedence_witness :
    resolveLayerType (some "roads") (some "water_features.geojsonseq") = some LayerType.roads ∧
    layerTypeFromFilename "land_use_water.geojsonseq" = some LayerType.basePolygons ∧
    resolveLayerType none (some "land_use_water.geojsonseq") = some LayerType.basePolygons ∧
    containsSub (lowerStr "water_features.geojsonseq") "water" = true ∧
    containsSub (lowerStr "land_use_water.geojsonseq") "water" = true := by
  refine ⟨?_, ?_, ?_, by decide, by decide⟩
  · exact c1_layer_rule_precedence.2.1 "roads" (some "water_features.geojsonseq") (by decide)
  · exact c1_layer_rule_precedence.2.2.2.1 "land_use_water.geojsonseq" (by decide)
  · show layerTypeFromFilename "land_use_water.geojsonseq" = _
    exact c1_layer_rule_precedence.2.2.2.1 "land_use_water.geojsonseq" (by decide)

end Basemap

namespace Basemap

/-- C4: the planner is total. Every (layer name, filename) input, together
with any filesystem state, yields a nonempty concrete parameter list, and an
input matching no recognized bucket whose geometry detection reports Mixed or
Unknown resolves to the conservative Mixed/Unknown fallback template. -/
theorem c4_planner_total (fs : FsOracle) (layer_name filename : Option String) :
    get_layer_tippecanoe_settings fs layer_name filename ≠ [] ∧
    (resolveLayerType layer_name filename = none →
      (geometryFor fs filename = "Unknown" ∨ geometryFor fs filename = "Mixed") →
      get_layer_tippecanoe_settings fs layer_name filename = mixedUnknownGeomSettings) := by
  constructor
  · rcases h : resolveLayerType layer_name filename with _ | t
    · simp only [get_layer_tippecanoe_settings, h]
      split
      · simp [pointGeomSettings]
      · split
        · simp [lineGeomSettings]
        · split
          · simp [polygonGeomSettings]
          · simp [mixedUnknownGeomSettings]
    · cases t <;>
        simp [get_layer_tippecanoe_settings, h, waterSettings, settlementExtentsSettings,
          roadsSettings, placesSettings, basePolygonsSettings]
  · intro h hg
    rcases hg with hg | hg <;> simp [get_layer_tippecanoe_settings, h, hg]

theorem c4_planner_total_witness :
    get_layer_tippecanoe_settings
        { exists_file := fun _ => false, detect := fun _ => "Unknown" }
        (some "mystery") (some "mystery.geojson")
      = mixedUnknownGeomSettings ∧
    get_layer_tippecanoe_settings
        { exists_file := fun _ => false, detect := fun _ => "Unknown" }
        (some "mystery") (some "mystery.geojson") ≠ [] := by
  constructor
  · exact (c4_planner_total _ _ _).2 (by decide) (Or.inl rfl)
  · exact (c4_planner_total
      { exists_file := fun _ => false, detect := fun _ => "Unknown" }
      (some "mystery") (some "mystery.geojson")).1

/-- C5: every generated tippecanoe argument list carries the
`--clip-bounding-box` flag immediately parameterised with the four extent
components joined by commas; for clip bounds (10,20,30,40) the literal
argument is `10,20,30,40`; and plan construction is a pure function of its
inputs, so repeated construction with identical inputs yields an identical
parameter list. -/
theorem c5_clip_bbox_always_present (fs : FsOracle) (e : Extent)
    (input_path tile_path layer_name theme_name lod_type : String)
    (layer_files : List (String × String)) (zoom_range : ZoomRange) :
    ("--clip-bounding-box" ∈ get_tippecanoe_command fs e input_path tile_path layer_name ∧
      clipString e ∈ get_tippecanoe_command fs e input_path tile_path layer_name) ∧
    ("--clip-bounding-box" ∈
        get_theme_tippecanoe_command fs e theme_name tile_path layer_files ∧
      clipString e ∈ get_theme_tippecanoe_command fs e theme_name tile_path layer_files) ∧
    ("--clip-bounding-box" ∈
        get_building_tippecanoe_command e input_path tile_path layer_name lod_type zoom_range ∧
      clipString e ∈
        get_building_tippecanoe_command e input_path tile_path layer_name lod_type zoom_range) ∧
    clipString { xmin := "10", ymin := "20", xmax := "30", ymax := "40" } = "10,20,30,40" ∧
    get_tippecanoe_command fs e input_path tile_path layer_name
      = get_tippecanoe_command fs e input_path tile_path layer_name := by
  refine ⟨⟨?_, ?_⟩, ⟨?_, ?_⟩, ⟨?_, ?_⟩, by decide, rfl⟩ <;>
    simp [get_tippecanoe_command, get_theme_tippecanoe_command,
      get_building_tippecanoe_command, List.mem_append]

end Basemap

namespace Basemap

theorem detectFromTypes_congr {l₁ l₂ : List String}
    (h : ∀ t, t ∈ l₁.map normalizeGeomType ↔ t ∈ l₂.map normalizeGeomType) :
    detectFromTypes l₁ = detectFromTypes l₂ := by
  have hperm : (l₁.map normalizeGeomType).dedup.Perm (l₂.map normalizeGeomType).dedup := by
    refine (List.perm_ext_iff_of_nodup (List.nodup_dedup _) (List.nodup_dedup _)).mpr ?_
    intro a
    rw [List.mem_dedup, List.mem_dedup]
    exact h a
  have hlen := hperm.length_eq
  unfold detectFromTypes
  rcases h1 : (l₁.map normalizeGeomType).dedup with _ | ⟨x, _ | ⟨y, rest⟩⟩ <;>
    rcases h2 : (l₂.map normalizeGeomType).dedup with _ | ⟨x2, _ | ⟨y2, rest2⟩⟩ <;>
      rw [h1, h2] at hperm hlen <;> simp_all

theorem dedup_eq_singleton_of_all_eq {l : List String} {t : String} (hne : l ≠ [])
    (h : ∀ x ∈ l, x = t) : l.dedup = [t] := by
  induction l with
  | nil => exact absurd rfl hne
  | cons a l ih =>
    have ha : a = t := h a (List.mem_cons_self a l)
    subst ha
    cases hl : l with
    | nil => simp
    | cons b bs =>
      have hl_ne : l ≠ [] := by rw [hl]; exact List.cons_ne_nil _ _
      have hdl : l.dedup = [a] := ih hl_ne (fun x hx => h x (List.mem_cons_of_mem _ hx))
      have hb : b = a := h b (by rw [hl]; exact List.mem_cons_of_mem _ (List.mem_cons_self b bs))
      have hmem : a ∈ l := by rw [hl, ← hb]; exact List.mem_cons_self b bs
      rw [hl] at hmem hdl
      rw [List.dedup_cons_of_mem hmem, hdl]

theorem normalizeGeomType_mem_of_standard (x : String)
    (hx : x ∈ (["Point", "MultiPoint", "LineString", "MultiLineString", "Polygon",
        "MultiPolygon"] : List String)) :
    normalizeGeomType x ∈ (["Point", "LineString", "Polygon"] : List String) := by
  fin_cases hx <;> decide

/-- C3 counterexample: a file whose single sampled geometry type is
`GeometryCollection` is classified as the raw string `GeometryCollection`,
which is none of the five enumerated categories the claim allows. -/
theorem c3_geometry_category_counterexample :
    detect_geometry_type (some ["GeometryCollection"]) = "GeometryCollection" ∧
    "GeometryCollection" ∉
      (["Point", "LineString", "Polygon", "Mixed", "Unknown"] : List String) := by
  decide

/-- C3 amended: classification of a readable file is determined solely by the
set of normalized geometry categories observed in the bounded 100-record
sample; multi-part types normalize to their single-part category first; a
single observed normalized category is returned verbatim, two or more yield
`Mixed`, an unreadable file or an empty sample yields `Unknown`; and the
result lies in the five enumerated categories provided every sampled type is
one of the six standard GeoJSON feature geometry types (a nonstandard type
such as `GeometryCollection` is instead returned verbatim). -/
theorem c3_classifier_amended :
    (∀ s₁ s₂ : List String,
      (∀ t, t ∈ (s₁.take 100).map normalizeGeomType ↔
        t ∈ (s₂.take 100).map normalizeGeomType) →
      detect_geometry_type (some s₁) = detect_geometry_type (some s₂)) ∧
    (normalizeGeomType "MultiPoint" = "Point" ∧
      normalizeGeomType "MultiLineString" = "LineString" ∧
      normalizeGeomType "MultiPolygon" = "Polygon") ∧
    (∀ (ts : List String) (t : String), ts.take 100 ≠ [] →
      (∀ x ∈ ts.take 100, normalizeGeomType x = t) →
      detect_geometry_type (some ts) = t) ∧
    (∀ (ts : List String) (a b : String), a ∈ (ts.take 100).map normalizeGeomType →
      b ∈ (ts.take 100).map normalizeGeomType → a ≠ b →
      detect_geometry_type (some ts) = "Mixed") ∧
    detect_geometry_type none = "Unknown" ∧
    (∀ ts : List String, ts.take 100 = [] → detect_geometry_type (some ts) = "Unknown") ∧
    (∀ ts : List String,
      (∀ x ∈ ts, x ∈ (["Point", "MultiPoint", "LineString", "MultiLineString", "Polygon",
          "MultiPolygon"] : List String)) →
      detect_geometry_type (some ts) ∈
        (["Point", "LineString", "Polygon", "Mixed", "Unknown"] : List String)) := by
  refine ⟨?_, by decide, ?_, ?_, rfl, ?_, ?_⟩
  · intro s₁ s₂ h
    exact detectFromTypes_congr h
  · intro ts t hne hall
    have hmapne : (ts.take 100).map normalizeGeomType ≠ [] := by
      simpa using hne
    have hmapall : ∀ x ∈ (ts.take 100).map normalizeGeomType, x = t := by
      intro x hx
      rcases List.mem_map.mp hx with ⟨y, hy, rfl⟩
      exact hall y hy
    have hd := dedup_eq_singleton_of_all_eq hmapne hmapall
    show detectFromTypes (ts.take 100) = t
    unfold detectFromTypes
    rw [hd]
  · intro ts a b ha hb hab
    have ha2 : a ∈ ((ts.take 100).map normalizeGeomType).dedup := List.mem_dedup.mpr ha
    have hb2 : b ∈ ((ts.take 100).map normalizeGeomType).dedup := List.mem_dedup.mpr hb
    show detectFromTypes (ts.take 100) = "Mixed"
    unfold detectFromTypes
    rcases hd : ((ts.take 100).map normalizeGeomType).dedup with _ | ⟨x, _ | ⟨y, rest⟩⟩
    · rw [hd] at ha2
      exact absurd ha2 (List.not_mem_nil a)
    · rw [hd] at ha2 hb2
      have : a = b := by
        rw [List.mem_singleton.mp ha2, List.mem_singleton.mp hb2]
      exact absurd this hab
    · rfl
  · intro ts h
    show detectFromTypes (ts.take 100) = "Unknown"
    unfold detectFromTypes
    rw [h]
    rfl
  · intro ts h
    show detectFromTypes (ts.take 100) ∈ _
    unfold detectFromTypes
    rcases hd : ((ts.take 100).map normalizeGeomType).dedup with _ | ⟨x, _ | ⟨y, rest⟩⟩
    · show ("Unknown" : String) ∈ _
      decide
    · have hx : x ∈ ((ts.take 100).map normalizeGeomType).dedup := by
        rw [hd]; exact List.mem_cons_self x []
      have hx2 : x ∈ (ts.take 100).map normalizeGeomType := List.mem_dedup.mp hx
      rcases List.mem_map.mp hx2 with ⟨z, hz, hzx⟩
      have hz2 : z ∈ ts := List.take_subset 100 ts hz
      have hstd := normalizeGeomType_mem_of_standard z (h z hz2)
      rw [hzx] at hstd
      show x ∈ _
      simp only [List.mem_cons, List.not_mem_nil, or_false] at hstd ⊢
      tauto
    · show ("Mixed" : String) ∈ _
      decide

theorem c3_classifier_amended_witness :
    detect_geometry_type (some ["Polygon", "MultiPolygon"]) = "Polygon" ∧
    detect_geometry_type (some ["Point", "Polygon"]) = "Mixed" :=
  ⟨c3_classifier_amended.2.2.1 ["Polygon", "MultiPolygon"] "Polygon" (by decide) (by decide),
   c3_classifier_amended.2.2.2.1 ["Point", "Polygon"] "Point" "Polygon"
     (by decide) (by decide) (by decide)⟩

end Basemap

namespace Basemap

/-- C2 counterexample: zoom level 13 lies inside the zoom window of both the
medium tier (11-13) and the high tier (13-15) of the building LOD
configuration, with both tiers enabled, so the zoom windows of two enabled
tiers are not disjoint. -/
theorem c2_zoom_overlap_counterexample :
    ((lod_configs false false false).filter
      (fun p => !p.2.skip && decide (inZoomWindow p.2.zoom_range 13))).map (fun p => p.1)
      = ["medium", "high"] := by
  decide

/-- C2 amended: building LOD planning has exactly three named tiers (low,
medium, high), each independently skippable by its skip flag; with low and
high enabled and medium skipped, exactly two tile archives are built, low
with zoom window 0-9 and high with zoom window 13-15, and those two windows
are disjoint (no zoom level belongs to both). The full pairwise-disjointness
of the original claim fails only for the medium/high pair, which share zoom
level 13. -/
theorem c2_building_lod_amended (exec : List String → Bool) (hexec : ∀ c, exec c = true)
    (e : Extent) (input_path tile_dir geojson_file : String) :
    (create_building_tiles_run exec e input_path tile_dir geojson_file false true false).map
        (fun a => a.lod_type) = ["low", "high"] ∧
    (∀ a ∈ create_building_tiles_run exec e input_path tile_dir geojson_file false true false,
      (a.lod_type = "low" → a.zoom_range = { min := 0, max := 9 }) ∧
      (a.lod_type = "high" → a.zoom_range = { min := 13, max := 15 })) ∧
    (∀ a ∈ create_building_tiles_run exec e input_path tile_dir geojson_file false true false,
      ∀ b ∈ create_building_tiles_run exec e input_path tile_dir geojson_file false true false,
        a.lod_type ≠ b.lod_type →
        ∀ z, ¬(inZoomWindow a.zoom_range z ∧ inZoomWindow b.zoom_range z)) ∧
    (∀ skip_low skip_medium skip_high : Bool,
      (create_building_tiles_run exec e input_path tile_dir geojson_file
          skip_low skip_medium skip_high).map (fun a => a.lod_type)
        = (if skip_low then [] else ["low"]) ++ (if skip_medium then [] else ["medium"])
          ++ (if skip_high then [] else ["high"])) := by
  refine ⟨?_, ?_, ?_, ?_⟩
  · simp [create_building_tiles_run, runLodConfigs, lod_configs, hexec]
  · intro a ha
    simp only [create_building_tiles_run, runLodConfigs, lod_configs, hexec, if_true,
      Bool.false_eq_true, if_false, List.mem_cons, List.not_mem_nil, or_false] at ha
    rcases ha with rfl | rfl <;> constructor <;> intro h <;> first | rfl | simp_all
  · intro a ha b hb hab z
    simp only [create_building_tiles_run, runLodConfigs, lod_configs, hexec, if_true,
      Bool.false_eq_true, if_false, List.mem_cons, List.not_mem_nil, or_false] at ha hb
    rcases ha with rfl | rfl <;> rcases hb with rfl | rfl
    · exact absurd rfl hab
    · rintro ⟨⟨h1, h2⟩, h3, h4⟩
      have h2n : z ≤ 9 := h2
      have h3n : 13 ≤ z := h3
      omega
    · rintro ⟨⟨h1, h2⟩, h3, h4⟩
      have h1n : 13 ≤ z := h1
      have h4n : z ≤ 9 := h4
      omega
    · exact absurd rfl hab
  · intro skip_low skip_medium skip_high
    cases skip_low <;> cases skip_medium <;> cases skip_high <;>
      simp [create_building_tiles_run, runLodConfigs, lod_configs, hexec]

theorem c2_building_lod_amended_witness :
    (create_building_tiles_run (fun _ => true)
        { xmin := "20.0", ymin := "-7.0", xmax := "26.0", ymax := "-3.0" }
        "data/buildings.geojsonseq" "tiles" "buildings.geojsonseq" false true false).map
      (fun a => a.lod_type) = ["low", "high"] :=
  (c2_building_lod_amended (fun _ => true) (fun _ => rfl)
    { xmin := "20.0", ymin := "-7.0", xmax := "26.0", ymax := "-3.0" }
    "data/buildings.geojsonseq" "tiles" "buildings.geojsonseq").1

end Basemap

namespace Basemap

theorem countP_bool_split {α : Type} (l : List α) (p : α → Bool) :
    l.countP p + l.countP (fun a => !(p a)) = l.length := by
  induction l with
  | nil => rfl
  | cons a l ih => cases h : p a <;> simp [List.countP_cons, h] <;> omega

theorem runLodConfigs_failure_last (exec : List String → Bool) (e : Extent)
    (input_path tile_dir base_name layer_name : String) :
    ∀ configs, ((runLodConfigs exec e input_path tile_dir base_name layer_name
      configs).dropLast.all (fun a => a.ok)) = true := by
  intro configs
  induction configs with
  | nil => rfl
  | cons hd rest ih =>
    obtain ⟨lod_type, config⟩ := hd
    simp only [runLodConfigs]
    split
    · exact ih
    · split
      · rcases hrec : runLodConfigs exec e input_path tile_dir base_name layer_name rest with
          _ | ⟨x, xs⟩
        · rfl
        · rw [hrec] at ih
          simp only [List.dropLast_cons₂, List.all_cons, ih, Bool.and_true]
      · rfl

theorem runLodConfigs_mem_configs (exec : List String → Bool) (e : Extent)
    (input_path tile_dir base_name layer_name : String) :
    ∀ configs (a : LodAttempt),
      a ∈ runLodConfigs exec e input_path tile_dir base_name layer_name configs →
      ∃ c : LodConfig, (a.lod_type, c) ∈ configs ∧ c.skip = false := by
  intro configs
  induction configs with
  | nil => intro a ha; exact absurd ha (List.not_mem_nil a)
  | cons hd rest ih =>
    obtain ⟨lod_type, config⟩ := hd
    intro a ha
    simp only [runLodConfigs] at ha
    by_cases hskip : config.skip = true
    · rw [if_pos hskip] at ha
      rcases ih a ha with ⟨c, hc, hcs⟩
      exact ⟨c, List.mem_cons_of_mem _ hc, hcs⟩
    · rw [if_neg hskip] at ha
      have hskipf : config.skip = false := by simpa using hskip
      split at ha
      · rcases List.mem_cons.mp ha with rfl | ha2
        · exact ⟨config, List.mem_cons_self _ _, hskipf⟩
        · rcases ih a ha2 with ⟨c, hc, hcs⟩
          exact ⟨c, List.mem_cons_of_mem _ hc, hcs⟩
      · rcases List.mem_singleton.mp ha with rfl
        exact ⟨config, List.mem_cons_self _ _, hskipf⟩

/-- C6 counterexample: in a building LOD batch of three enabled units where
exactly the low-tier invocation fails, the medium and high tiers are never
attempted — the run trace contains only the single failure instead of one
failure plus two further attempts. -/
theorem c6_batch_isolation_counterexample :
    (create_building_tiles_run
      (fun cmd => !(cmd.contains "tiles/buildings_low_lod.pmtiles"))
      { xmin := "20.0", ymin := "-7.0", xmax := "26.0", ymax := "-3.0" }
      "data/buildings.geojsonseq" "tiles" "buildings.geojsonseq"
      false false false).map (fun a => (a.lod_type, a.ok)) = [("low", false)] ∧
    ((lod_configs false false false).filter (fun p => !p.2.skip)).length = 3 := by
  decide

/-- C6 amended: in the per-theme orchestration loop a failed unit never
prevents subsequent units — every theme in the batch yields exactly one
result entry, and a batch with exactly one failing invocation yields one
failure entry and N-1 success entries. The building LOD sub-batch however
aborts on failure: in any building run trace every attempt before the last
one succeeded. -/
theorem c6_failure_isolation_amended (exec : String → ToolOutcome) (themes : List String)
    (execB : List String → Bool) (e : Extent) (input_path tile_dir geojson_file : String)
    (skip_low skip_medium skip_high : Bool) :
    (process_themes_run exec themes).length = themes.length ∧
    (themes.countP (fun t => !(outcomeOk (exec t))) = 1 →
      (process_themes_run exec themes).countP (fun r => !r.2) = 1 ∧
      (process_themes_run exec themes).countP (fun r => r.2) = themes.length - 1) ∧
    ((create_building_tiles_run execB e input_path tile_dir geojson_file
        skip_low skip_medium skip_high).dropLast.all (fun a => a.ok) = true) := by
  refine ⟨by simp [process_themes_run], ?_, ?_⟩
  · intro h
    have hfail : (process_themes_run exec themes).countP (fun r => !r.2)
        = themes.countP (fun t => !(outcomeOk (exec t))) := by
      rw [process_themes_run, List.countP_map]
      rfl
    have hok : (process_themes_run exec themes).countP (fun r => r.2)
        = themes.countP (fun t => outcomeOk (exec t)) := by
      rw [process_themes_run, List.countP_map]
      rfl
    have hsplit := countP_bool_split themes (fun t => outcomeOk (exec t))
    constructor
    · rw [hfail, h]
    · rw [hok]
      omega
  · exact runLodConfigs_failure_last execB e input_path tile_dir (stem geojson_file) "layer" _

theorem c6_failure_isolation_amended_witness :
    (process_themes_run
        (fun t => if t = "base" then ToolOutcome.calledProcessError else ToolOutcome.success)
        ["base", "transportation", "places"]).countP (fun r => !r.2) = 1 ∧
    (process_themes_run
        (fun t => if t = "base" then ToolOutcome.calledProcessError else ToolOutcome.success)
        ["base", "transportation", "places"]).countP (fun r => r.2)
      = (["base", "transportation", "places"] : List String).length - 1 :=
  (c6_failure_isolation_amended
    (fun t => if t = "base" then ToolOutcome.calledProcessError else ToolOutcome.success)
    ["base", "transportation", "places"] (fun _ => true)
    { xmin := "20.0", ymin := "-7.0", xmax := "26.0", ymax := "-3.0" }
    "i" "t" "g" false false false).2.1 (by decide)

/-- C7 counterexample: the processing orchestrator catches a missing tile
tool (`FileNotFoundError`) with its blanket exception handler and continues
with the next theme, so a run in which the first unit hits tool-not-found
still attempts the second unit instead of stopping immediately. -/
theorem c7_tool_not_found_counterexample :
    process_themes_run
      (fun theme => if theme = "base" then ToolOutcome.fileNotFound else ToolOutcome.success)
      ["base", "transportation"] = [("base", false), ("transportation", true)] := by
  decide

/-- C7 amended: only the legacy overture orchestrator treats tool-not-found
as fatal — its loop stops immediately, attempting no further file — while
the processing orchestrator records the unit as failed like any other error
and still processes every theme in the batch. -/
theorem c7_tool_not_found_amended (exec : String → ToolOutcome) (f : String)
    (files themes : List String) :
    (exec f = ToolOutcome.fileNotFound →
      BasemapOverture.process_to_tiles_run exec (f :: files)
        = [(f, ToolOutcome.fileNotFound)]) ∧
    (process_themes_run exec themes).length = themes.length ∧
    (∀ t ∈ themes, (t, outcomeOk (exec t)) ∈ process_themes_run exec themes) := by
  refine ⟨?_, by simp [process_themes_run], ?_⟩
  · intro h
    simp [BasemapOverture.process_to_tiles_run, h]
  · intro t ht
    simp only [process_themes_run, List.mem_map]
    exact ⟨t, ht, rfl⟩

theorem c7_tool_not_found_amended_witness :
    BasemapOverture.process_to_tiles_run (fun _ => ToolOutcome.fileNotFound)
        ["water.geojsonseq", "roads.geojsonseq"]
      = [("water.geojsonseq", ToolOutcome.fileNotFound)] :=
  (c7_tool_not_found_amended (fun _ => ToolOutcome.fileNotFound) "water.geojsonseq"
    ["roads.geojsonseq"] []).1 rfl

/-- C10: the default building path of the orchestrator calls the LOD builder
with its default skip flags, which skip the high tier; a default run
therefore never attempts a high-LOD archive, and when every invocation
succeeds it produces exactly the low-LOD and medium-LOD archives with their
derived output paths. -/
theorem c10_default_building_lods (exec : List String → Bool) (e : Extent)
    (input_path tile_dir geojson_file : String) :
    (∀ a ∈ process_buildings_default exec e input_path tile_dir geojson_file,
      a.lod_type ≠ "high") ∧
    ((∀ cmd, exec cmd = true) →
      (process_buildings_default exec e input_path tile_dir geojson_file).map
          (fun a => (a.lod_type, a.out_path, a.ok))
        = [("low", tile_dir ++ "/" ++ stem geojson_file ++ "_low_lod" ++ ".pmtiles", true),
           ("medium",
            tile_dir ++ "/" ++ stem geojson_file ++ "_medium_lod" ++ ".pmtiles", true)]) := by
  constructor
  · intro a ha
    rcases runLodConfigs_mem_configs exec e input_path tile_dir (stem geojson_file) "layer"
      (lod_configs false false true) a ha with ⟨c, hc, hcs⟩
    simp only [lod_configs, List.mem_cons, List.not_mem_nil, or_false] at hc
    rcases hc with hc | hc | hc <;> rw [Prod.mk.injEq] at hc
    · rw [hc.1]; decide
    · rw [hc.1]; decide
    · rw [hc.2] at hcs
      simp at hcs
  · intro hexec
    simp [process_buildings_default, create_building_tiles_run, runLodConfigs, lod_configs,
      hexec]

theorem c10_default_building_lods_witness :
    (process_buildings_default (fun _ => true)
        { xmin := "20.0", ymin := "-7.0", xmax := "26.0", ymax := "-3.0" }
        "data/buildings.geojsonseq" "tiles" "buildings.geojsonseq").map
          (fun a => (a.lod_type, a.out_path, a.ok))
      = [("low", "tiles/buildings_low_lod.pmtiles", true),
         ("medium", "tiles/buildings_medium_lod.pmtiles", true)] := by
  have h := (c10_default_building_lods (fun _ => true)
    { xmin := "20.0", ymin := "-7.0", xmax := "26.0", ymax := "-3.0" }
    "data/buildings.geojsonseq" "tiles" "buildings.geojsonseq").2 (fun cmd => rfl)
  exact h.trans (by decide)

end Basemap
